import Mathlib

/-!
Verification of the MSSQL dialect module (`src/sqlfluff/dialects/dialect_mssql.py`)
of the sqlfluff grammar-composition engine.

The module under `src/` defines the MSSQL dialect by deriving it from the ANSI
dialect, reclassifying keywords, adding grammar fragments, and registering or
replacing segment definitions.  The combinator library, the matching engine,
the `Dialect` registry machinery, the ANSI base dialect and the keyword
resource are collaborators that are not under `src/`; where a claim depends on
them they are modelled from the spec (each such definition carries a
`Modelled from the spec:` doc comment).  Everything that is in the source file
is embedded directly.
-/

/- ### Character classes and a small regex model

The source uses `RegexParser(r"[@][a-zA-Z0-9_\.]*", ...)`.  Regular expressions
of this shape (a sequence of character classes, each matched once or
zero-or-more times, anchored to the whole token) are modelled first-order so
that matching is executable and decidable. -/

inductive CharCls : Type where
  | range : Char → Char → CharCls
  | single : Char → CharCls
deriving DecidableEq

inductive RItem : Type where
  | one : List CharCls → RItem
  | many : List CharCls → RItem
deriving DecidableEq

/-- Membership of a character in a class list (a regex `[...]` bracket). -/
def inCls (cl : List CharCls) (c : Char) : Bool :=
  cl.any (fun cc =>
    match cc with
    | .range lo hi => decide (lo ≤ c) && decide (c ≤ hi)
    | .single c0 => c == c0)

/-- All suffixes of `cs` reachable by deleting a (possibly empty) run of
characters of class `cl` from the front: the split points a `[...]∗` item may
leave for the rest of the regex. -/
def suffixesDroppingCls (cl : List CharCls) : List Char → List (List Char)
  | [] => [[]]
  | c :: cs => (c :: cs) :: (if inCls cl c then suffixesDroppingCls cl cs else [])

/-- Modelled from the spec: the `Pattern` grammar-node contract of §3/§4.2 — a
regular-expression token matcher; the matching engine itself is out of scope of
the source.  `rzmatch items cs` decides whether the whole character list `cs`
is matched by the anchored regex `items` (each item one class occurrence or a
starred class). -/
def rzmatch : List RItem → List Char → Bool
  | [], cs => cs.isEmpty
  | .one _ :: _, [] => false
  | .one cl :: rs, c :: cs => inCls cl c && rzmatch rs cs
  | .many cl :: rs, cs => (suffixesDroppingCls cl cs).any (fun cs2 => rzmatch rs cs2)

/- ### The grammar-node tree

Embeds the combinator surface used by the source module: bare keyword strings,
`StringParser`/`NamedParser` style literal parsers, `RegexParser` patterns,
`Ref` (lazily resolved name, with an `optional` flag), `Sequence`, `OneOf`,
`AnyNumberOf`, `Bracketed`, `OptionallyBracketed` and `Delimited`.  Every node
carries its `optional` flag, as in the source where optionality is a property
of the element itself. -/

mutual
inductive Grammar : Type where
  | kw : String → Bool → Grammar
  | strP : String → Bool → Grammar
  | pattern : List RItem → Bool → Grammar
  | ref : String → Bool → Grammar
  | seq : GrammarList → Bool → Grammar
  | oneOf : GrammarList → Bool → Grammar
  | anyNumberOf : GrammarList → Bool → Grammar
  | bracketed : GrammarList → Bool → Grammar
  | optionallyBracketed : GrammarList → Bool → Grammar
  | delimited : GrammarList → Bool → Grammar
inductive GrammarList : Type where
  | nil : GrammarList
  | cons : Grammar → GrammarList → GrammarList
end

/-- Conversion from ordinary lists of grammar nodes into the child-list type. -/
def gl : List Grammar → GrammarList
  | [] => .nil
  | g :: gs => .cons g (gl gs)

/-- The inverse conversion. -/
def glToList : GrammarList → List Grammar
  | .nil => []
  | .cons g gs => g :: glToList gs

/-- The `optional` flag of a grammar node. -/
def Grammar.isOptional : Grammar → Bool
  | .kw _ o => o
  | .strP _ o => o
  | .pattern _ o => o
  | .ref _ o => o
  | .seq _ o => o
  | .oneOf _ o => o
  | .anyNumberOf _ o => o
  | .bracketed _ o => o
  | .optionallyBracketed _ o => o
  | .delimited _ o => o

/-- The child list of a composite grammar node (empty for leaves). -/
def Grammar.children : Grammar → GrammarList
  | .kw _ _ => .nil
  | .strP _ _ => .nil
  | .pattern _ _ => .nil
  | .ref _ _ => .nil
  | .seq cs _ => cs
  | .oneOf cs _ => cs
  | .anyNumberOf cs _ => cs
  | .bracketed cs _ => cs
  | .optionallyBracketed cs _ => cs
  | .delimited cs _ => cs

/-- A resolution environment: what a `Ref` name denotes.  Instantiated below
from a dialect's registry and fragment table. -/
abbrev Env := String → Option Grammar

/-- Uppercasing used for the case-insensitive keyword comparison of the spec's
`Literal/Keyword` contract (built character-wise so it is kernel-reducible). -/
def upperStr (s : String) : String := String.mk (s.data.map Char.toUpper)

/-- Helper of the `Bracketed` matcher: require a closing bracket token. -/
def closeParen : List String → List (List String)
  | ")" :: r => [r]
  | _ => []

/- ### The matching contract

Modelled from the spec: the matching engine (§1 "out of scope", §4.2) walks a
grammar against a token stream and either consumes a span or fails.
`matchStep env recur g ts` returns the list of possible remaining suffixes
after `g` consumed a prefix of `ts`; `recur` is used wherever a `Ref` is
resolved or a repetition loops, and `matchRem` ties the knot with a fuel bound
so the function stays executable.  Optional children may be skipped by the
containing sequence, per §4.2. -/

mutual
def matchStep (env : Env) (recur : Grammar → List String → List (List String)) :
    Grammar → List String → List (List String)
  | .kw _ _, [] => []
  | .kw s _, t :: ts => if upperStr t = upperStr s then [ts] else []
  | .strP _ _, [] => []
  | .strP s _, t :: ts => if upperStr t = s then [ts] else []
  | .pattern _ _, [] => []
  | .pattern items _, t :: ts => if rzmatch items t.data then [ts] else []
  | .ref n _, ts =>
      match env n with
      | none => []
      | some g => recur g ts
  | .seq cs _, ts => seqStep env recur cs ts
  | .oneOf cs _, ts => oneOfStep env recur cs ts
  | .anyNumberOf cs o, ts =>
      ts :: (oneOfStep env recur cs ts).flatMap (fun ts2 => recur (.anyNumberOf cs o) ts2)
  | .bracketed _ _, [] => []
  | .bracketed cs _, t :: ts =>
      if t = "(" then (seqStep env recur cs ts).flatMap closeParen else []
  | .optionallyBracketed cs _, ts =>
      (match ts with
       | t :: ts2 => if t = "(" then (seqStep env recur cs ts2).flatMap closeParen else []
       | [] => []) ++ seqStep env recur cs ts
  | .delimited cs o, ts =>
      (seqStep env recur cs ts).flatMap (fun ts2 =>
        ts2 :: (match ts2 with
          | t :: ts3 => if t = "," then recur (.delimited cs o) ts3 else []
          | [] => []))
def seqStep (env : Env) (recur : Grammar → List String → List (List String)) :
    GrammarList → List String → List (List String)
  | .nil, ts => [ts]
  | .cons c cs, ts =>
      ((if c.isOptional then [ts] else []) ++ matchStep env recur c ts).flatMap
        (fun t2 => seqStep env recur cs t2)
def oneOfStep (env : Env) (recur : Grammar → List String → List (List String)) :
    GrammarList → List String → List (List String)
  | .nil, _ => []
  | .cons c cs, ts => matchStep env recur c ts ++ oneOfStep env recur cs ts
end

/-- The fuel-bounded matcher: `S2 ∈ matchRem env fuel g S` means `g` matches a
prefix of `S` leaving suffix `S2`; a full match of `S` is `[] ∈ matchRem …`. -/
def matchRem (env : Env) : Nat → Grammar → List String → List (List String)
  | 0, _, _ => []
  | fuel + 1, g, ts => matchStep env (matchRem env fuel) g ts

/- ### Keyword processing and keyword-set operations

The source computes `[n.strip().upper() for n in mssql_reserved_keywords.split("\n")]`
and feeds it to `difference_update` / `update` on the dialect's keyword sets.
The string helpers are built character-wise so they are kernel-reducible;
they follow Python's `split("\n")`, `strip()` and `upper()` exactly on this
input class. -/

/-- `split("\n")` on the character level: one (possibly empty) chunk per line. -/
def splitOnNl : List Char → List (List Char)
  | [] => [[]]
  | c :: cs =>
      if c = '\n' then [] :: splitOnNl cs
      else
        match splitOnNl cs with
        | h :: t => (c :: h) :: t
        | [] => [[c]]

/-- Python `strip()`: drop leading and trailing whitespace characters. -/
def trimChars (l : List Char) : List Char :=
  ((l.dropWhile Char.isWhitespace).reverse.dropWhile Char.isWhitespace).reverse

/-- Python `upper()`, character-wise. -/
def upperChars (l : List Char) : List Char := l.map Char.toUpper

/-- The keyword-list processing of source lines 16-21:
`[n.strip().upper() for n in resource.split("\n")]`. -/
def processKeywords (resource : String) : List String :=
  (splitOnNl resource.data).map (fun l => String.mk (upperChars (trimChars l)))

/-- Modelled from the spec: insertion into a `KeywordSet` (§4.1); the set type
and its Python `set.add` semantics are not under src.  Membership-idempotent
insertion into a duplicate-free list representation. -/
def kwInsert (s : List String) (k : String) : List String :=
  if k ∈ s then s else s ++ [k]

/-- Modelled from the spec: `update(set_name, keywords)` of §4.1 adds the given
keywords to the set. -/
def kwUpdate (s : List String) (ks : List String) : List String :=
  ks.foldl kwInsert s

/-- Modelled from the spec: `difference_update(set_name, keywords)` of §4.1
removes the given keywords from the set. -/
def kwDifferenceUpdate (s : List String) (ks : List String) : List String :=
  s.filter (fun k => decide (k ∉ ks))

/- ### Dialects, registries and registration

Modelled from the spec: the `Dialect` class, its `copy_as`, `sets`, `add` and
`segment()` registration machinery live in `sqlfluff.core.dialects`, which is
not under src; they are modelled from §3, §4.3 and §4.4. -/

/-- Association-list lookup by name (the registry access primitive). -/
def alookup {α : Type} : List (String × α) → String → Option α
  | [], _ => none
  | (k0, v) :: t, k => if k0 = k then some v else alookup t k

/-- Association-list update: replace the entry for `k`, or append it. -/
def assocSet {α : Type} : List (String × α) → String → α → List (String × α)
  | [], k, v => [(k, v)]
  | (k0, v0) :: t, k, v => if k0 = k then (k, v) :: t else (k0, v0) :: assocSet t k v

/-- Association-list modification of an existing entry. -/
def assocModify {α : Type} : List (String × α) → String → (α → α) → List (String × α)
  | [], _, _ => []
  | (k0, v) :: t, k, f => if k0 = k then (k0, f v) :: t else (k0, v) :: assocModify t k f

/-- Modelled from the spec: a `SegmentDefinition` (§3) — a semantic type tag
plus a `match_grammar`. -/
structure SegmentDefinition : Type where
  typeTag : String
  matchGrammar : Grammar

/-- Modelled from the spec: a `Dialect` (§3) — named keyword sets, named
reusable grammar fragments (`add`), and a registry of segment definitions. -/
structure Dialect : Type where
  name : String
  keywordSets : List (String × List String)
  fragments : List (String × Grammar)
  registry : List (String × SegmentDefinition)

/-- Modelled from the spec: the construction-time error kinds of §7 that the
registration API can raise. -/
inductive RegError : Type where
  | DuplicateDefinition : RegError
  | UnknownSegment : RegError
deriving DecidableEq

/-- Modelled from the spec: `derive(base, new_name)` / `copy_as` (§4.3) — a
full structural copy under a new name. -/
def copyAs (d : Dialect) (newName : String) : Dialect :=
  { d with name := newName }

/-- Modelled from the spec: `dialect.sets(name).update(keywords)`. -/
def setsUpdate (d : Dialect) (setName : String) (ks : List String) : Dialect :=
  { d with keywordSets := assocModify d.keywordSets setName (fun s => kwUpdate s ks) }

/-- Modelled from the spec: `dialect.sets(name).difference_update(keywords)`. -/
def setsDifferenceUpdate (d : Dialect) (setName : String) (ks : List String) : Dialect :=
  { d with keywordSets := assocModify d.keywordSets setName (fun s => kwDifferenceUpdate s ks) }

/-- Modelled from the spec: `dialect.add(name=fragment)` (§4.4) — inserts a new
named fragment, failing with `DuplicateDefinition` if the name exists. -/
def addFragment (d : Dialect) (n : String) (g : Grammar) : Except RegError Dialect :=
  match alookup d.fragments n with
  | some _ => .error .DuplicateDefinition
  | none => .ok { d with fragments := d.fragments ++ [(n, g)] }

/-- One `dialect.add(...)` call with several keyword arguments. -/
def addFragments (d : Dialect) (fs : List (String × Grammar)) : Except RegError Dialect :=
  fs.foldlM (fun d2 p => addFragment d2 p.1 p.2) d

/-- Modelled from the spec: `register(definition, replace)` (§4.4, §7) — without
`replace` a fresh name is required (`DuplicateDefinition` otherwise); with
`replace` an existing name is required (`UnknownSegment` otherwise) and the
entry is wholly replaced. -/
def registerSegment (d : Dialect) (n : String) (sd : SegmentDefinition) (replace : Bool) :
    Except RegError Dialect :=
  if replace then
    match alookup d.registry n with
    | some _ => .ok { d with registry := assocSet d.registry n sd }
    | none => .error .UnknownSegment
  else
    match alookup d.registry n with
    | some _ => .error .DuplicateDefinition
    | none => .ok { d with registry := d.registry ++ [(n, sd)] }

/-- Modelled from the spec: segment lookup (`get_segment`), raising
`UnknownSegment` for an unknown name (§8 scenario 7). -/
def getSegment (d : Dialect) (n : String) : Except RegError SegmentDefinition :=
  match alookup d.registry n with
  | some sd => .ok sd
  | none => .error .UnknownSegment

/-- The resolution environment a finished dialect offers to the matching
engine: registry entries first, then named fragments. -/
def envOf (d : Dialect) : Env := fun n =>
  match alookup d.registry n with
  | some sd => some sd.matchGrammar
  | none => alookup d.fragments n

/- ### Modelled ANSI base material

The ANSI dialect (loaded by `load_raw_dialect("ansi")`) is not under src; only
the names the MSSQL module references are needed.  Each definition is a
minimal grammar faithful to the name's documented role. -/

/-- ASCII letters. -/
def letterCls : List CharCls := [.range 'a' 'z', .range 'A' 'Z']

/-- ASCII letters, digits and underscore. -/
def wordCls : List CharCls := letterCls ++ [.range '0' '9', .single '_']

/-- ASCII digits. -/
def digitCls : List CharCls := [.range '0' '9']

/-- Modelled from the spec: `NakedIdentifierSegment` of the ANSI base dialect
(not under src) — a plain identifier token. -/
def identifierItems : List RItem := [.one letterCls, .many wordCls]

/-- Modelled from the spec: `NumericLiteralSegment` of the ANSI base dialect
(not under src) — a digit-run token. -/
def numericLiteralItems : List RItem := [.one digitCls, .many digitCls]

/-- Modelled from the spec: the ANSI base dialect's named fragments referenced
by the MSSQL module (none of them under src), as minimal grammars. -/
def ansiFragments : List (String × Grammar) := [
  ("NakedIdentifierSegment", .pattern identifierItems false),
  ("NumericLiteralSegment", .pattern numericLiteralItems false),
  ("QuotedLiteralSegment", .pattern [.one wordCls, .many wordCls] false),
  ("TableReferenceSegment", .ref "NakedIdentifierSegment" false),
  ("IfExistsGrammar", .seq (gl [.kw "IF" false, .kw "EXISTS" false]) false),
  ("SelectableGrammar", .seq (gl [.kw "SELECT" false, .ref "NumericLiteralSegment" false]) false),
  ("WithNoSchemaBindingClauseSegment",
    .seq (gl [.kw "WITH" false, .kw "NO" false, .kw "SCHEMA" false, .kw "BINDING" false]) false),
  ("StatementSegment", .ref "SelectableGrammar" false),
  ("EqualsSegment", .strP "=" false),
  ("LiteralGrammar",
    .oneOf (gl [.ref "QuotedLiteralSegment" false, .ref "NumericLiteralSegment" false]) false),
  ("FunctionSegment",
    .seq (gl [.ref "NakedIdentifierSegment" false, .bracketed (gl []) false]) false),
  ("DatatypeSegment", .ref "NakedIdentifierSegment" false),
  ("TableConstraintSegment", .seq (gl [.kw "PRIMARY" false, .kw "KEY" false]) false),
  ("ColumnDefinitionSegment",
    .seq (gl [.ref "NakedIdentifierSegment" false, .ref "DatatypeSegment" false]) false),
  ("CommentClauseSegment", .seq (gl [.kw "COMMENT" false, .ref "QuotedLiteralSegment" false]) false)]

/-- Modelled from the spec (§8 scenario 6): the ANSI base dialect's
`DropStatementSegment` grammar `DROP (TABLE|VIEW) <ref>` (not under src). -/
def ansiDropStatementGrammar : Grammar :=
  .seq (gl [
    .kw "DROP" false,
    .oneOf (gl [.kw "TABLE" false, .kw "VIEW" false]) false,
    .ref "TableReferenceSegment" false]) false

/-- Modelled from the spec: the ANSI base dialect's `CreateViewStatementSegment`
(not under src; it exists there, which is what `replace=True` requires). -/
def ansiCreateViewStatementGrammar : Grammar :=
  .seq (gl [
    .kw "CREATE" false,
    .kw "VIEW" false,
    .ref "TableReferenceSegment" false,
    .kw "AS" false,
    .ref "SelectableGrammar" false,
    .ref "WithNoSchemaBindingClauseSegment" true]) false

/-- Modelled from the spec: the ANSI base dialect's `CreateTableStatementSegment`
(not under src). -/
def ansiCreateTableStatementGrammar : Grammar :=
  .seq (gl [.kw "CREATE" false, .kw "TABLE" false, .ref "TableReferenceSegment" false]) false

/-- Modelled from the spec: the ANSI base dialect's segment registry entries
relevant to the MSSQL module (not under src): the three segments the module
replaces exist; the three it newly registers do not. -/
def ansiRegistry : List (String × SegmentDefinition) := [
  ("DropStatementSegment", ⟨"drop_statement", ansiDropStatementGrammar⟩),
  ("CreateViewStatementSegment", ⟨"create_view_statement", ansiCreateViewStatementGrammar⟩),
  ("CreateTableStatementSegment", ⟨"create_table_statement", ansiCreateTableStatementGrammar⟩)]

/-- Modelled from the spec: the ANSI base dialect value (`load_raw_dialect("ansi")`,
not under src), with representative keyword sets. -/
def ansiDialect : Dialect :=
  { name := "ansi",
    keywordSets := [
      ("unreserved_keywords", ["VIEW", "TABLE", "HANDLER", "USER", "GO"]),
      ("reserved_keywords", ["SELECT", "DROP", "CREATE"])],
    fragments := ansiFragments,
    registry := ansiRegistry }

/- ### The MSSQL module, embedded statement by statement (source lines 12-268) -/

/-- Modelled from the spec: the external keyword resource
`sqlfluff.dialects.mssql_keywords.mssql_reserved_keywords` (not under src);
per §6 a newline-separated keyword list, here a representative value. -/
def mssql_reserved_keywords : String := "ADD\nEXTERNAL\nPROCEDURE\nDECLARE\nHANDLER"

/-- The processed keyword list of source lines 17 and 20. -/
def mssqlKeywordList : List String := processKeywords mssql_reserved_keywords

/-- The `Ref('GoStatementSegment', optional=True)` element that `MSSQLSequence`
appends (source line 99). -/
def goTermRef : Grammar := .ref "GoStatementSegment" true

/-- `MSSQLSequence` (source lines 93-99): a `Sequence` subtype whose
constructor appends one optional reference to `GoStatementSegment` to the
supplied children. -/
def MSSQLSequence (args : List Grammar) (opt : Bool) : Grammar :=
  .seq (gl (args ++ [goTermRef])) opt

/-- `GoStatementSegment.match_grammar` (source lines 87-90). -/
def GoStatementGrammar : Grammar :=
  .seq (gl [.ref "GoSegment" false, .ref "NumericLiteralSegment" true]) false

/-- `VariableNameSegment`'s regex `[@][a-zA-Z0-9_\.]*` (source line 70): `@`
followed by zero or more word characters or dots. -/
def variableNameItems : List RItem :=
  [.one [.single '@'],
   .many [.range 'a' 'z', .range 'A' 'Z', .range '0' '9', .single '_', .single '.']]

/-- `VariableNameSegment` (source lines 69-74). -/
def VariableNameSegmentGrammar : Grammar := .pattern variableNameItems false

/-- The fragments of the `mssql_dialect.add(...)` call (source lines 23-75), in
source order.  The `NamedParser`-based `DoubleQuotedLiteralSegment` matches a
lexed token class that the string-token model represents by its raw shape. -/
def mssqlFragmentAdds : List (String × Grammar) := [
  ("AdditionAssignmentSegment", .strP "+=" false),
  ("SubtractionAssignmentSegment", .strP "-=" false),
  ("DivisionAssignmentSegment", .strP "/=" false),
  ("MultiplicationAssignmentSegment", .strP "*=" false),
  ("ModuloAssignmentSegment", .strP "%=" false),
  ("BitwiseAndAssignmentSegment", .strP "&=" false),
  ("BitwiseOrAssignmentSegment", .strP "|=" false),
  ("BitwiseXorAssignmentSegment", .strP "^=" false),
  ("ArithmeticBinaryAssignmentOperatorGrammar", .oneOf (gl [
      .ref "AdditionAssignmentSegment" false,
      .ref "SubtractionAssignmentSegment" false,
      .ref "DivisionAssignmentSegment" false,
      .ref "MultiplicationAssignmentSegment" false,
      .ref "ModuloAssignmentSegment" false,
      .ref "BitwiseAndAssignmentSegment" false,
      .ref "BitwiseOrAssignmentSegment" false,
      .ref "BitwiseXorAssignmentSegment" false]) false),
  ("GoSegment", .strP "GO" false),
  ("DoubleQuotedLiteralSegment", .pattern [.one [.single '"'], .many wordCls, .one [.single '"']] false),
  ("OrAlterGrammar", .seq (gl [.kw "OR" false, .kw "ALTER" false]) false),
  ("VariableNameSegment", VariableNameSegmentGrammar)]

/-- The inner `MSSQLSequence("NOT", "FOUND")` of `DeclareStatement`
(source line 127). -/
def declareNotFoundSeq : Grammar :=
  MSSQLSequence [.kw "NOT" false, .kw "FOUND" false] false

/-- The inner `MSSQLSequence("SQLSTATE", ...)` of `DeclareStatement`
(source lines 128-132). -/
def declareSqlstateSeq : Grammar :=
  MSSQLSequence [
    .kw "SQLSTATE" false,
    .kw "VALUE" true,
    .ref "QuotedLiteralSegment" false] false

/-- The inner `MSSQLSequence(Ref("StatementSegment"))` of `DeclareStatement`
(source line 139). -/
def declareHandlerActionSeq : Grammar :=
  MSSQLSequence [.ref "StatementSegment" false] false

/-- The first (cursor) alternative of `DeclareStatement` (source lines 112-118). -/
def declareCursorSeq : Grammar :=
  MSSQLSequence [
    .kw "DECLARE" false,
    .ref "NakedIdentifierSegment" false,
    .kw "CURSOR" false,
    .kw "FOR" false,
    .ref "StatementSegment" false] false

/-- The second (handler) alternative of `DeclareStatement` (source lines 119-140). -/
def declareHandlerSeq : Grammar :=
  MSSQLSequence [
    .kw "DECLARE" false,
    .oneOf (gl [.kw "CONTINUE" false, .kw "EXIT" false, .kw "UNDO" false]) false,
    .kw "HANDLER" false,
    .kw "FOR" false,
    .oneOf (gl [
      .kw "SQLEXCEPTION" false,
      .kw "SQLWARNING" false,
      declareNotFoundSeq,
      declareSqlstateSeq,
      .oneOf (gl [
        .ref "QuotedLiteralSegment" false,
        .ref "NumericLiteralSegment" false,
        .ref "NakedIdentifierSegment" false]) false]) false,
    declareHandlerActionSeq] false

/-- The third (condition) alternative of `DeclareStatement` (source lines 141-147). -/
def declareConditionSeq : Grammar :=
  MSSQLSequence [
    .kw "DECLARE" false,
    .ref "NakedIdentifierSegment" false,
    .kw "CONDITION" false,
    .kw "FOR" false,
    .oneOf (gl [.ref "QuotedLiteralSegment" false, .ref "NumericLiteralSegment" false]) false] false

/-- The inner optional `MSSQLSequence(Ref.keyword("DEFAULT"), ..., optional=True)`
of `DeclareStatement` (source lines 152-160). -/
def declareDefaultSeq : Grammar :=
  MSSQLSequence [
    .kw "DEFAULT" false,
    .oneOf (gl [
      .ref "QuotedLiteralSegment" false,
      .ref "NumericLiteralSegment" false,
      .ref "FunctionSegment" false]) false] true

/-- The fourth (variable) alternative of `DeclareStatement` (source lines 148-161). -/
def declareVariableSeq : Grammar :=
  MSSQLSequence [
    .kw "DECLARE" false,
    .ref "VariableNameSegment" false,
    .ref "DatatypeSegment" false,
    declareDefaultSeq] false

/-- `DeclareStatement.match_grammar` (source lines 111-162). -/
def DeclareStatementGrammar : Grammar :=
  .oneOf (gl [declareCursorSeq, declareHandlerSeq, declareConditionSeq, declareVariableSeq]) false

/-- `DropStatementSegment.match_grammar` of the MSSQL dialect
(source lines 171-182). -/
def DropStatementGrammar : Grammar :=
  MSSQLSequence [
    .kw "DROP" false,
    .oneOf (gl [
      .kw "TABLE" false,
      .kw "VIEW" false,
      .kw "USER" false,
      .kw "FUNCTION" false,
      .kw "PROCEDURE" false]) false,
    .ref "IfExistsGrammar" true,
    .ref "TableReferenceSegment" false] false

/-- `SetAssignmentStatementSegment.match_grammar` (source lines 194-204). -/
def SetAssignmentStatementGrammar : Grammar :=
  MSSQLSequence [
    .kw "SET" false,
    .ref "VariableNameSegment" false,
    .oneOf (gl [.ref "EqualsSegment" false, .ref "ArithmeticBinaryAssignmentOperatorGrammar" false]) false,
    .anyNumberOf (gl [
      .ref "LiteralGrammar" false,
      .ref "DoubleQuotedLiteralSegment" false,
      .ref "VariableNameSegment" false,
      .ref "FunctionSegment" false]) false] false

/-- `CreateViewStatementSegment.match_grammar` of the MSSQL dialect
(source lines 219-228); its last written child is an explicit optional
`Ref('GoStatementSegment')`, and the `MSSQLSequence` wrapper appends another. -/
def CreateViewStatementGrammar : Grammar :=
  MSSQLSequence [
    .kw "CREATE" false,
    .ref "OrAlterGrammar" true,
    .kw "VIEW" false,
    .ref "TableReferenceSegment" false,
    .kw "AS" false,
    .ref "SelectableGrammar" false,
    .ref "WithNoSchemaBindingClauseSegment" true,
    .ref "GoStatementSegment" true] false

/-- `CreateTableStatementSegment.match_grammar` of the MSSQL dialect
(source lines 242-268). -/
def CreateTableStatementGrammar : Grammar :=
  MSSQLSequence [
    .kw "CREATE" false,
    .ref "OrAlterGrammar" true,
    .kw "TABLE" false,
    .ref "TableReferenceSegment" false,
    .optionallyBracketed (gl [
      .oneOf (gl [
        .seq (gl [
          .bracketed (gl [
            .delimited (gl [
              .oneOf (gl [
                .ref "TableConstraintSegment" false,
                .ref "ColumnDefinitionSegment" false]) false]) false]) false,
          .ref "CommentClauseSegment" true]) false,
        .seq (gl [
          .kw "AS" false,
          .optionallyBracketed (gl [.ref "SelectableGrammar" false]) false]) false,
        .seq (gl [.kw "LIKE" false, .ref "TableReferenceSegment" false]) false]) false]) false] false

/- ### The module's edit script and the resulting dialects -/

/-- One build-time edit a derived dialect performs on itself: the operations
the MSSQL module uses (keyword-set edits, `add`, segment registration). -/
inductive Edit : Type where
  | diffUpdate : String → List String → Edit
  | update : String → List String → Edit
  | addFrags : List (String × Grammar) → Edit
  | register : String → SegmentDefinition → Bool → Edit

/-- Apply one edit to a dialect, propagating registration errors (§7). -/
def applyEditE : Edit → Dialect → Except RegError Dialect
  | .diffUpdate sn ks, d => .ok (setsDifferenceUpdate d sn ks)
  | .update sn ks, d => .ok (setsUpdate d sn ks)
  | .addFrags fs, d => addFragments d fs
  | .register n sd rep, d => registerSegment d n sd rep

/-- The MSSQL module's edits after `copy_as` (source lines 16-268), in source
order: the two keyword-set calls, the `add(...)` call, and the six
`@mssql_dialect.segment(...)` registrations with their class names and flags. -/
def mssqlEdits : List Edit := [
  .diffUpdate "unreserved_keywords" mssqlKeywordList,
  .update "reserved_keywords" mssqlKeywordList,
  .addFrags mssqlFragmentAdds,
  .register "GoStatementSegment" ⟨"go_statement", GoStatementGrammar⟩ false,
  .register "DeclareStatement" ⟨"declare_statement", DeclareStatementGrammar⟩ false,
  .register "DropStatementSegment" ⟨"drop_statement", DropStatementGrammar⟩ true,
  .register "SetAssignmentStatementSegment" ⟨"set_statement", SetAssignmentStatementGrammar⟩ false,
  .register "CreateViewStatementSegment" ⟨"create_view_statement", CreateViewStatementGrammar⟩ true,
  .register "CreateTableStatementSegment" ⟨"create_table_statement", CreateTableStatementGrammar⟩ true]

/-- The whole module run: `mssql_dialect = ansi_dialect.copy_as("mssql")`
followed by the edit script. -/
def mssqlDialectE : Except RegError Dialect :=
  mssqlEdits.foldlM (fun d e => applyEditE e d) (copyAs ansiDialect "mssql")

/-- The placeholder dialect (unreachable: the build succeeds, see the
registration theorem). -/
def emptyDialect : Dialect := { name := "", keywordSets := [], fragments := [], registry := [] }

/-- The finished MSSQL dialect value. -/
def mssqlDialect : Dialect := mssqlDialectE.toOption.getD emptyDialect

/-- The finished MSSQL dialect's resolution environment. -/
def mssqlEnv : Env := envOf mssqlDialect

/-- The ANSI base dialect's resolution environment. -/
def ansiEnv : Env := envOf ansiDialect

/- ### A store of named dialects

To state that editing the derived dialect never changes the base dialect, the
module is also read as a program acting on a mutable table of dialects
(Modelled from the spec, §4.3/§8 property 1: derivation produces a fully
independent value). -/

/-- A named-dialect store. -/
abbrev Store := List (String × Dialect)

/-- A store-level edit: `copy_as` from one name to another, or one dialect
edit applied to a named dialect. -/
inductive StoreEdit : Type where
  | copy : String → String → StoreEdit
  | apply : String → Edit → StoreEdit

/-- The store entry a store edit writes to. -/
def storeEditWrites : StoreEdit → String
  | .copy _ dst => dst
  | .apply t _ => t

/-- Apply one store edit (an erroring edit leaves the store unchanged; the
module's edits all succeed). -/
def applyStoreEdit (s : Store) (e : StoreEdit) : Store :=
  match e with
  | .copy src dst =>
      match alookup s src with
      | none => s
      | some d => assocSet s dst (copyAs d dst)
  | .apply t ed =>
      match alookup s t with
      | none => s
      | some d =>
          match applyEditE ed d with
          | .ok d2 => assocSet s t d2
          | .error _ => s

/-- The store before the MSSQL module runs: just the ANSI base dialect. -/
def initialStore : Store := [("ansi", ansiDialect)]

/-- The MSSQL module as store edits: the `copy_as`, then every edit applied to
the `"mssql"` entry. -/
def moduleStoreEdits : List StoreEdit :=
  .copy "ansi" "mssql" :: mssqlEdits.map (fun e => .apply "mssql" e)

/-- The store after the MSSQL module ran. -/
def finalStore : Store := moduleStoreEdits.foldl applyStoreEdit initialStore

/- ### Small structural helpers used by the claims -/

/-- Whether a grammar node is exactly the appended terminator reference
`Ref('GoStatementSegment', optional=True)`. -/
def isGoTermRef : Grammar → Bool
  | .ref n o => n == "GoStatementSegment" && o
  | _ => false

/-- How many terminator references a child list ends with. -/
def glTrailingGo (cs : GrammarList) : Nat :=
  ((glToList cs).reverse.takeWhile isGoTermRef).length

/- ### Helper lemmas -/

theorem flatMap_singleton_id (l : List (List String)) : l.flatMap (fun a => [a]) = l := by
  induction l with
  | nil => rfl
  | cons a t ih => simp [List.flatMap_cons, ih]

theorem glToList_gl (l : List Grammar) : glToList (gl l) = l := by
  induction l with
  | nil => rfl
  | cons g t ih => simp [gl, glToList, ih]

theorem goTermRef_isOptional : goTermRef.isOptional = true := rfl

/-- Appending one element to a sequence's child list post-composes its matcher
with that element's skip-or-match step. -/
theorem seqStep_gl_append (env : Env) (recur : Grammar → List String → List (List String))
    (xs : List Grammar) (c : Grammar) (ts : List String) :
    seqStep env recur (gl (xs ++ [c])) ts =
      (seqStep env recur (gl xs) ts).flatMap
        (fun t2 => (if c.isOptional then [t2] else []) ++ matchStep env recur c t2) := by
  induction xs generalizing ts with
  | nil =>
      simp only [List.nil_append, gl, seqStep]
      rw [flatMap_singleton_id]
      simp [List.flatMap_cons]
  | cons a xs ih =>
      simp only [List.cons_append, gl, seqStep]
      rw [List.flatMap_assoc]
      exact congrArg _ (funext (fun t2 => ih t2))

theorem mem_kwInsert {s : List String} {a k : String} :
    k ∈ kwInsert s a ↔ k ∈ s ∨ k = a := by
  unfold kwInsert
  by_cases h : a ∈ s
  · simp only [if_pos h]
    constructor
    · exact Or.inl
    · rintro (hk | rfl)
      · exact hk
      · exact h
  · simp [if_neg h]

theorem mem_kwUpdate {s ks : List String} {k : String} :
    k ∈ kwUpdate s ks ↔ k ∈ s ∨ k ∈ ks := by
  induction ks generalizing s with
  | nil => simp [kwUpdate]
  | cons a ks ih =>
      show k ∈ kwUpdate (kwInsert s a) ks ↔ _
      rw [ih, mem_kwInsert]
      simp [or_assoc, List.mem_cons]

theorem mem_kwDifferenceUpdate {s ks : List String} {k : String} :
    k ∈ kwDifferenceUpdate s ks ↔ k ∈ s ∧ k ∉ ks := by
  simp [kwDifferenceUpdate, List.mem_filter]

theorem kwUpdate_eq_self_of_subset {s ks : List String} (h : ∀ k ∈ ks, k ∈ s) :
    kwUpdate s ks = s := by
  induction ks generalizing s with
  | nil => rfl
  | cons a ks ih =>
      show kwUpdate (kwInsert s a) ks = s
      have ha : a ∈ s := h a (List.mem_cons_self a ks)
      rw [kwInsert, if_pos ha]
      exact ih (fun k hk => h k (List.mem_cons_of_mem a hk))

theorem kwDifferenceUpdate_idem (s ks : List String) :
    kwDifferenceUpdate (kwDifferenceUpdate s ks) ks = kwDifferenceUpdate s ks := by
  unfold kwDifferenceUpdate
  induction s with
  | nil => rfl
  | cons a t ih =>
      by_cases h : a ∈ ks
      · simp [List.filter_cons, h, ih]
      · simp [List.filter_cons, h, ih]

theorem alookup_assocSet_ne {α : Type} (s : List (String × α)) {k n : String} (v : α)
    (h : k ≠ n) : alookup (assocSet s k v) n = alookup s n := by
  induction s with
  | nil => simp [assocSet, alookup, h]
  | cons p t ih =>
      obtain ⟨k0, v0⟩ := p
      by_cases h0 : k0 = k
      · subst h0
        simp [assocSet, alookup, h]
      · simp only [assocSet, if_neg h0, alookup]
        by_cases h1 : k0 = n
        · simp [if_pos h1]
        · simp [if_neg h1, ih]

theorem alookup_applyStoreEdit_ne (s : Store) (e : StoreEdit) {n : String}
    (h : storeEditWrites e ≠ n) :
    alookup (applyStoreEdit s e) n = alookup s n := by
  cases e with
  | copy src dst =>
      show alookup (match alookup s src with
        | none => s
        | some d => assocSet s dst (copyAs d dst)) n = alookup s n
      cases alookup s src with
      | none => rfl
      | some d => exact alookup_assocSet_ne s _ h
  | apply t ed =>
      show alookup (match alookup s t with
        | none => s
        | some d => match applyEditE ed d with
          | .ok d2 => assocSet s t d2
          | .error _ => s) n = alookup s n
      cases h1 : alookup s t with
      | none => rfl
      | some d =>
          show alookup (match applyEditE ed d with
            | .ok d2 => assocSet s t d2
            | .error _ => s) n = alookup s n
          cases h2 : applyEditE ed d with
          | ok d2 => exact alookup_assocSet_ne s _ h
          | error _ => rfl

theorem alookup_foldl_applyStoreEdit (s : Store) (es : List StoreEdit) (n : String)
    (h : ∀ e ∈ es, storeEditWrites e ≠ n) :
    alookup (es.foldl applyStoreEdit s) n = alookup s n := by
  induction es generalizing s with
  | nil => rfl
  | cons e es ih =>
      show alookup (es.foldl applyStoreEdit (applyStoreEdit s e)) n = alookup s n
      rw [ih (applyStoreEdit s e) (fun e2 he2 => h e2 (List.mem_cons_of_mem e he2)),
        alookup_applyStoreEdit_ne s e (h e (List.mem_cons_self e es))]

theorem any_isEmpty_suffixesDroppingCls (cl : List CharCls) (cs : List Char) :
    (suffixesDroppingCls cl cs).any (fun cs2 => cs2.isEmpty) = cs.all (inCls cl) := by
  induction cs with
  | nil => rfl
  | cons c cs ih =>
      simp only [suffixesDroppingCls, List.any_cons, List.all_cons]
      by_cases h : inCls cl c = true
      · simp [h, ih, List.isEmpty_cons]
      · have hb : inCls cl c = false := by
          cases hc : inCls cl c
          · rfl
          · exact absurd hc h
        simp [hb, List.isEmpty_cons]

/-- A starred class item followed by nothing matches exactly the runs of its
class. -/
theorem rzmatch_many_singleton (cl : List CharCls) (cs : List Char) :
    rzmatch [.many cl] cs = cs.all (inCls cl) := by
  show (suffixesDroppingCls cl cs).any (fun cs2 => rzmatch [] cs2) = _
  simp only [rzmatch]
  exact any_isEmpty_suffixesDroppingCls cl cs

/- ### The claims -/

/-- Claim C1: for every child list `C1..Cn`, the wrapper `MSSQLSequence(C1..Cn)`
is the hand-written `Sequence(C1..Cn, Ref('GoStatementSegment', optional=True))`,
and it matches a token stream `S` exactly when plain `Sequence(C1..Cn)` matches
a prefix of `S` (leaving suffix `S2`) and the remainder is either empty or is
consumed entirely by one `GoStatementSegment` match (through the optional
terminator reference). -/
theorem mssqlSequence_matching_semantics (env : Env) (fuel : Nat) (args : List Grammar)
    (opt : Bool) (S : List String) :
    MSSQLSequence args opt =
      Grammar.seq (gl (args ++ [Grammar.ref "GoStatementSegment" true])) opt ∧
    ([] ∈ matchRem env fuel (MSSQLSequence args opt) S ↔
      ∃ S2, S2 ∈ matchRem env fuel (Grammar.seq (gl args) opt) S ∧
        (S2 = [] ∨ [] ∈ matchRem env fuel (Grammar.ref "GoStatementSegment" true) S2)) := by
  refine ⟨rfl, ?_⟩
  cases fuel with
  | zero => simp [matchRem]
  | succ n =>
      show [] ∈ seqStep env (matchRem env n) (gl (args ++ [goTermRef])) S ↔
        ∃ S2, S2 ∈ seqStep env (matchRem env n) (gl args) S ∧
          (S2 = [] ∨ [] ∈ matchStep env (matchRem env n) goTermRef S2)
      rw [seqStep_gl_append]
      simp only [List.mem_flatMap, goTermRef, Grammar.isOptional, if_true, List.mem_append,
        List.mem_singleton]
      constructor
      · rintro ⟨S2, hS2, h⟩
        exact ⟨S2, hS2, h.imp Eq.symm id⟩
      · rintro ⟨S2, hS2, h⟩
        exact ⟨S2, hS2, h.imp Eq.symm id⟩

/-- Claim C2: edits applied to named dialects never change a dialect they do
not write to — in particular the whole MSSQL module leaves the ANSI entry of
the store exactly as it was — and after the module runs, `GoStatementSegment`
lookup succeeds in the derived dialect and fails with `UnknownSegment` in the
base dialect. -/
theorem dialect_derivation_independence :
    (∀ (s : Store) (es : List StoreEdit) (n : String),
        (∀ e ∈ es, storeEditWrites e ≠ n) →
        alookup (es.foldl applyStoreEdit s) n = alookup s n) ∧
    alookup finalStore "ansi" = some ansiDialect ∧
    alookup finalStore "mssql" = some mssqlDialect ∧
    getSegment mssqlDialect "GoStatementSegment" = .ok ⟨"go_statement", GoStatementGrammar⟩ ∧
    getSegment ansiDialect "GoStatementSegment" = .error .UnknownSegment :=
  ⟨alookup_foldl_applyStoreEdit, rfl, rfl, rfl, rfl⟩

/-- Witness for C2: the frame property applied to the module's own edit list
and the `"ansi"` entry. -/
theorem dialect_derivation_independence_witness :
    alookup (List.foldl applyStoreEdit initialStore moduleStoreEdits) "ansi" =
      alookup initialStore "ansi" :=
  dialect_derivation_independence.1 initialStore moduleStoreEdits "ansi" (by decide)

/-- Claim C3: the `replace=True` registration leaves the MSSQL registry's
`DropStatementSegment` with exactly type tag `drop_statement` and the new
grammar whose object alternatives are TABLE, VIEW, USER, FUNCTION, PROCEDURE;
`DROP USER Bob` matches the derived dialect's definition and fails against the
base dialect's. -/
theorem drop_statement_override_semantics :
    alookup mssqlDialect.registry "DropStatementSegment" =
      some ⟨"drop_statement", DropStatementGrammar⟩ ∧
    (glToList DropStatementGrammar.children)[1]? =
      some (.oneOf (gl [.kw "TABLE" false, .kw "VIEW" false, .kw "USER" false,
        .kw "FUNCTION" false, .kw "PROCEDURE" false]) false) ∧
    [] ∈ matchRem mssqlEnv 12 DropStatementGrammar ["DROP", "USER", "Bob"] ∧
    [] ∉ matchRem ansiEnv 12 ansiDropStatementGrammar ["DROP", "USER", "Bob"] :=
  ⟨rfl, rfl, by decide, by decide⟩

/-- Claim C4: after `difference_update` on one set and `update` on the other
with the same keyword list, every listed keyword is absent from the first set
and present in the second (hence in at most one of the two), and every keyword
not in the list keeps its membership in both sets. -/
theorem keyword_reclassification_membership (u r ks : List String) (K : String) :
    (K ∈ ks →
      K ∉ kwDifferenceUpdate u ks ∧
      K ∈ kwUpdate r ks ∧
      ¬(K ∈ kwDifferenceUpdate u ks ∧ K ∈ kwUpdate r ks)) ∧
    (K ∉ ks →
      (K ∈ kwDifferenceUpdate u ks ↔ K ∈ u) ∧
      (K ∈ kwUpdate r ks ↔ K ∈ r)) := by
  constructor
  · intro hK
    have h1 : K ∉ kwDifferenceUpdate u ks := by
      rw [mem_kwDifferenceUpdate]
      tauto
    exact ⟨h1, mem_kwUpdate.mpr (Or.inr hK), fun hc => h1 hc.1⟩
  · intro hK
    constructor
    · rw [mem_kwDifferenceUpdate]
      tauto
    · rw [mem_kwUpdate]
      tauto

/-- Witness for C4: the reclassification at the module's processed keyword
list, for the listed keyword HANDLER (spec §8 scenario 5) and the unlisted
keyword VIEW. -/
theorem keyword_reclassification_membership_witness :
    ("HANDLER" ∉ kwDifferenceUpdate ["VIEW", "TABLE", "HANDLER"] mssqlKeywordList ∧
     "HANDLER" ∈ kwUpdate [] mssqlKeywordList ∧
     ¬("HANDLER" ∈ kwDifferenceUpdate ["VIEW", "TABLE", "HANDLER"] mssqlKeywordList ∧
       "HANDLER" ∈ kwUpdate [] mssqlKeywordList)) ∧
    (("VIEW" ∈ kwDifferenceUpdate ["VIEW", "TABLE", "HANDLER"] mssqlKeywordList ↔
       "VIEW" ∈ ["VIEW", "TABLE", "HANDLER"]) ∧
     ("VIEW" ∈ kwUpdate [] mssqlKeywordList ↔ "VIEW" ∈ ([] : List String))) :=
  ⟨(keyword_reclassification_membership ["VIEW", "TABLE", "HANDLER"] [] mssqlKeywordList
      "HANDLER").1 (by decide),
   (keyword_reclassification_membership ["VIEW", "TABLE", "HANDLER"] [] mssqlKeywordList
      "VIEW").2 (by decide)⟩

/-- Claim C5: registering without `replace` fails with `DuplicateDefinition`
exactly when the name exists, registering with `replace` fails with
`UnknownSegment` exactly when it does not; and the module's six registrations
all succeed because the plainly-registered names are absent from the copied
ANSI registry and the `replace=True` names are present in it. -/
theorem registration_error_and_success :
    (∀ (d : Dialect) (n : String) (sd : SegmentDefinition),
      ((registerSegment d n sd false = .error .DuplicateDefinition) ↔
        (alookup d.registry n).isSome = true) ∧
      ((registerSegment d n sd true = .error .UnknownSegment) ↔
        alookup d.registry n = none)) ∧
    mssqlDialectE = .ok mssqlDialect ∧
    alookup ansiDialect.registry "GoStatementSegment" = none ∧
    alookup ansiDialect.registry "DeclareStatement" = none ∧
    alookup ansiDialect.registry "SetAssignmentStatementSegment" = none ∧
    (alookup ansiDialect.registry "DropStatementSegment").isSome = true ∧
    (alookup ansiDialect.registry "CreateViewStatementSegment").isSome = true ∧
    (alookup ansiDialect.registry "CreateTableStatementSegment").isSome = true := by
  refine ⟨?_, rfl, rfl, rfl, rfl, rfl, rfl, rfl⟩
  intro d n sd
  constructor
  · cases h : alookup d.registry n <;> simp [registerSegment, h]
  · cases h : alookup d.registry n <;> simp [registerSegment, h]

/-- Claim C6: every `MSSQLSequence` construction appends exactly one optional
terminator reference to its own child list, the trailing-terminator count of a
constructed child list exceeds that of the supplied children by exactly one,
and in the concrete (nested) `DeclareStatement` grammar every wrapped sequence
ends with exactly one appended terminator reference. -/
theorem mssqlSequence_single_terminator_per_construction :
    (∀ (args : List Grammar) (opt : Bool),
      Grammar.children (MSSQLSequence args opt) = gl (args ++ [goTermRef])) ∧
    (∀ (args : List Grammar) (opt : Bool),
      glTrailingGo (Grammar.children (MSSQLSequence args opt)) =
        1 + (args.reverse.takeWhile isGoTermRef).length) ∧
    glTrailingGo (Grammar.children declareCursorSeq) = 1 ∧
    glTrailingGo (Grammar.children declareHandlerSeq) = 1 ∧
    glTrailingGo (Grammar.children declareConditionSeq) = 1 ∧
    glTrailingGo (Grammar.children declareVariableSeq) = 1 ∧
    glTrailingGo (Grammar.children declareNotFoundSeq) = 1 ∧
    glTrailingGo (Grammar.children declareSqlstateSeq) = 1 ∧
    glTrailingGo (Grammar.children declareHandlerActionSeq) = 1 ∧
    glTrailingGo (Grammar.children declareDefaultSeq) = 1 := by
  refine ⟨fun args opt => rfl, ?_, by decide, by decide, by decide, by decide, by decide,
    by decide, by decide, by decide⟩
  intro args opt
  show glTrailingGo (gl (args ++ [goTermRef])) = _
  unfold glTrailingGo
  rw [glToList_gl, List.reverse_append]
  simp [List.takeWhile_cons, isGoTermRef, goTermRef, Nat.add_comm]

/-- Counterexample for C7: on a resource with a blank line the source's
processing `[n.strip().upper() for n in resource.split("\n")]` yields an entry
for the blank line — the empty string — and the subsequent `update` puts the
empty string into the reserved-keyword set, contradicting the claim that blank
lines contribute no entry. -/
theorem keyword_processing_blank_line_counterexample :
    processKeywords "CREATE\n\nGO" ≠ ["CREATE", "GO"] ∧
    processKeywords "CREATE\n\nGO" = ["CREATE", "", "GO"] ∧
    "" ∈ kwUpdate [] (processKeywords "CREATE\n\nGO") :=
  ⟨by decide, by decide, by decide⟩

/-- Claim C7 as amended: the processing yields one entry per line of the
resource — including blank lines — each entry being the line trimmed of
leading/trailing whitespace and uppercased; a blank line contributes the empty
string, which the `update` call then adds to the reserved-keyword set. -/
theorem keyword_processing_amended (resource : String) :
    (processKeywords resource).length = (splitOnNl resource.data).length ∧
    (∀ l, l ∈ splitOnNl resource.data →
      String.mk (upperChars (trimChars l)) ∈ processKeywords resource) ∧
    (∀ k, k ∈ processKeywords resource →
      ∃ l, l ∈ splitOnNl resource.data ∧ k = String.mk (upperChars (trimChars l))) ∧
    (∀ s : List String, (∃ l, l ∈ splitOnNl resource.data ∧ trimChars l = []) →
      "" ∈ kwUpdate s (processKeywords resource)) := by
  refine ⟨by simp [processKeywords], ?_, ?_, ?_⟩
  · intro l hl
    exact List.mem_map_of_mem _ hl
  · intro k hk
    rcases List.mem_map.mp hk with ⟨l, hl, hkl⟩
    exact ⟨l, hl, hkl.symm⟩
  · rintro s ⟨l, hl, hnil⟩
    apply mem_kwUpdate.mpr
    right
    have h2 : String.mk (upperChars (trimChars l)) ∈ processKeywords resource :=
      List.mem_map_of_mem _ hl
    rw [hnil] at h2
    exact h2

/-- Witness for C7 (amended): the processing evaluated on a concrete resource
with a blank line. -/
theorem keyword_processing_amended_witness :
    (String.mk (upperChars (trimChars ['G', 'O'])) ∈ processKeywords "CREATE\n\nGO") ∧
    "" ∈ kwUpdate ["X"] (processKeywords "CREATE\n\nGO") :=
  ⟨(keyword_processing_amended "CREATE\n\nGO").2.1 ['G', 'O'] (by decide),
   (keyword_processing_amended "CREATE\n\nGO").2.2.2 ["X"] (by decide)⟩

/-- Claim C8: `update` and `difference_update` are idempotent — applying either
twice equals applying it once — and re-adding a present keyword or re-removing
absent keywords is a no-op, not an error. -/
theorem keyword_set_ops_idempotent :
    (∀ s ks : List String, kwUpdate (kwUpdate s ks) ks = kwUpdate s ks) ∧
    (∀ s ks : List String,
      kwDifferenceUpdate (kwDifferenceUpdate s ks) ks = kwDifferenceUpdate s ks) ∧
    (∀ (s : List String) (k : String), k ∈ s → kwInsert s k = s) ∧
    (∀ s ks : List String, (∀ k ∈ ks, k ∉ s) → kwDifferenceUpdate s ks = s) := by
  refine ⟨?_, fun s ks => kwDifferenceUpdate_idem s ks, ?_, ?_⟩
  · intro s ks
    exact kwUpdate_eq_self_of_subset (fun k hk => mem_kwUpdate.mpr (Or.inr hk))
  · intro s k h
    simp [kwInsert, if_pos h]
  · intro s ks h
    unfold kwDifferenceUpdate
    apply List.filter_eq_self.mpr
    intro a ha
    simp only [decide_eq_true_eq]
    intro hak
    exact h a hak ha

/-- Witness for C8: the no-op branches evaluated at concrete sets. -/
theorem keyword_set_ops_idempotent_witness :
    kwInsert ["GO"] "GO" = ["GO"] ∧ kwDifferenceUpdate ["GO"] ["X"] = ["GO"] :=
  ⟨keyword_set_ops_idempotent.2.2.1 ["GO"] "GO" (by decide),
   keyword_set_ops_idempotent.2.2.2 ["GO"] ["X"] (by decide)⟩

/-- Claim C9: the replacing `CreateViewStatementSegment` grammar ends with two
consecutive optional `GoStatementSegment` references — the explicit last child
plus the wrapper-appended one — so a create-view statement followed by zero,
one or two GO terminator matches is accepted. -/
theorem create_view_double_terminator :
    (glToList CreateViewStatementGrammar.children).reverse.take 2 =
      [Grammar.ref "GoStatementSegment" true, Grammar.ref "GoStatementSegment" true] ∧
    [] ∈ matchRem mssqlEnv 12 CreateViewStatementGrammar
      ["CREATE", "VIEW", "v", "AS", "SELECT", "1"] ∧
    [] ∈ matchRem mssqlEnv 12 CreateViewStatementGrammar
      ["CREATE", "VIEW", "v", "AS", "SELECT", "1", "GO"] ∧
    [] ∈ matchRem mssqlEnv 12 CreateViewStatementGrammar
      ["CREATE", "VIEW", "v", "AS", "SELECT", "1", "GO", "GO"] :=
  ⟨rfl, by decide, by decide, by decide⟩

/-- Claim C10: the `VariableNameSegment` regex `[@][a-zA-Z0-9_\.]*` matches a
token exactly when it is `@` followed by zero or more word characters or dots
(including the bare token `@`), and matches nothing that does not start with
`@`. -/
theorem variable_name_regex_characterization :
    alookup mssqlDialect.fragments "VariableNameSegment" = some VariableNameSegmentGrammar ∧
    VariableNameSegmentGrammar = .pattern variableNameItems false ∧
    rzmatch variableNameItems ['@'] = true ∧
    (∀ s : String, rzmatch variableNameItems s.data = true ↔
      ∃ rest : List Char, s.data = '@' :: rest ∧
        rest.all (inCls [.range 'a' 'z', .range 'A' 'Z', .range '0' '9',
          .single '_', .single '.']) = true) := by
  refine ⟨rfl, rfl, rfl, ?_⟩
  intro s
  cases hd : s.data with
  | nil =>
      simp [variableNameItems, rzmatch]
  | cons c cs =>
      show rzmatch [.one [.single '@'],
        .many [.range 'a' 'z', .range 'A' 'Z', .range '0' '9', .single '_', .single '.']]
          (c :: cs) = true ↔ _
      rw [show rzmatch [.one [.single '@'],
        .many [.range 'a' 'z', .range 'A' 'Z', .range '0' '9', .single '_', .single '.']]
          (c :: cs) = (inCls [.single '@'] c &&
            rzmatch [.many [.range 'a' 'z', .range 'A' 'Z', .range '0' '9', .single '_',
              .single '.']] cs) from rfl]
      rw [rzmatch_many_singleton]
      simp [inCls, List.cons.injEq, Bool.and_eq_true]
      constructor
      · rintro ⟨hc, hall⟩
        exact ⟨cs, ⟨hc, rfl⟩, hall⟩
      · rintro ⟨rest, ⟨hc, hrest⟩, hall⟩
        subst hrest
        exact ⟨hc, hall⟩
